import Mathlib

/-!
Verification development for the bluesky-later repository.

The definitions below are a shallow embedding of the scheduling core:

* the Express API server (`api/index.ts`, in the source tree as
  `src/unnamed/part_002`): the posts/credentials tables, the CRUD route
  handlers and the `/api/cron/check-posts` run loop;
* the remote store client `src/lib/db/remote.ts` (`RemoteDB`);
* the payload builder `getPostData`, whose source file `src/lib/bluesky.ts`
  is not part of the tree and is therefore modelled from the spec.

Timestamps are modelled as integers, SQL rows as structures, the two
database tables as lists of rows plus a SERIAL counter each.  External
effects (the Bluesky agent's `login` and `post` calls) are modelled by an
oracle supplying each call's outcome, and every store/network interaction
of the cron handler is recorded in an event trace so that claims about
"zero reads", "exactly one publish call" etc. can be stated directly.
-/

namespace BlueskyLater

/-- Post status column: the TEXT column `status` of the `posts` table takes
exactly the values "pending", "published", "failed". -/
inductive Status where
  | pending
  | published
  | failed
deriving DecidableEq, Repr

/-- One row of the `posts` table
(`id SERIAL, content TEXT, scheduled_for TIMESTAMP, status TEXT, error TEXT,
created_at TIMESTAMP, url TEXT, image JSONB`).  The JSONB image column is
kept opaque as an optional string. -/
structure Post where
  id : Nat
  content : String
  scheduledFor : Int
  status : Status
  error : Option String
  createdAt : Int
  url : Option String
  image : Option String
deriving DecidableEq, Repr

/-- One row of the `credentials` table
(`id SERIAL, identifier TEXT, password TEXT`). -/
structure Credentials where
  id : Nat
  identifier : String
  password : String
deriving DecidableEq, Repr

/-- The database state: both tables plus their SERIAL counters. -/
structure DBState where
  posts : List Post
  postsSeq : Nat
  creds : List Credentials
  credsSeq : Nat
deriving DecidableEq, Repr

/-- Outcomes of the Bluesky agent's network calls during one cron run:
`loginResult identifier password` is `none` when `agent.login` succeeds and
`some msg` when it rejects with error message `msg`; `publishResult id text`
likewise for `agent.post` on the post with the given id and text. -/
structure Oracle where
  loginResult : String → String → Option String
  publishResult : Nat → String → Option String

/-- Events of one cron-handler invocation: store reads (`selectDue` for the
due-post SELECT, `readCreds` for the per-post credentials SELECT), agent
calls (`login`, `publish`) and store writes (`write id st err`, an UPDATE of
the post row with the given id; `err = none` leaves the error column as it
was, matching the success-path UPDATE that only sets status). -/
inductive CronEvent where
  | selectDue
  | readCreds
  | login (identifier password : String)
  | publish (postId : Nat) (text : String)
  | write (postId : Nat) (st : Status) (err : Option String)
deriving DecidableEq, Repr

/-- Fixed message of the TypeError thrown by `creds.identifier` when the
credentials SELECT returned no row (`creds` is `undefined`). -/
def undefinedCredsMessage : String :=
  "Cannot read properties of undefined (reading 'identifier')"

/-- Due-ness test used by the SELECT
`WHERE status = 'pending' AND scheduled_for <= NOW()`. -/
def isDue (now : Int) (p : Post) : Bool :=
  p.status = Status.pending && p.scheduledFor ≤ now

/-- The due-post SELECT of the cron handler. -/
def selectDue (now : Int) (posts : List Post) : List Post :=
  posts.filter (isDue now)

/-- One iteration of the cron loop body for post `p`, given the credentials
row read inside the try block: the sequence of events it produces.  With no
credentials row the field access throws before `agent.login` is called and
the catch block marks the post failed; a login rejection or a publish
rejection is likewise caught and marks the post failed with the thrown
message; on success the post is marked published (status column only). -/
def processPost (o : Oracle) (creds : Option Credentials) (p : Post) :
    List CronEvent :=
  match creds with
  | none =>
      [CronEvent.readCreds,
       CronEvent.write p.id Status.failed (some undefinedCredsMessage)]
  | some c =>
      match o.loginResult c.identifier c.password with
      | some msg =>
          [CronEvent.readCreds, CronEvent.login c.identifier c.password,
           CronEvent.write p.id Status.failed (some msg)]
      | none =>
          match o.publishResult p.id p.content with
          | some msg =>
              [CronEvent.readCreds, CronEvent.login c.identifier c.password,
               CronEvent.publish p.id p.content,
               CronEvent.write p.id Status.failed (some msg)]
          | none =>
              [CronEvent.readCreds, CronEvent.login c.identifier c.password,
               CronEvent.publish p.id p.content,
               CronEvent.write p.id Status.published none]

/-- The whole `for (const post of posts)` loop over the selected batch. -/
def runLoop (o : Oracle) (creds : Option Credentials) (batch : List Post) :
    List CronEvent :=
  batch.flatMap (processPost o creds)

/-- Effect of one event on one row of the posts table: a write whose id
matches updates the status (and the error column when the write carries an
error message); everything else leaves the row alone. -/
def applyEventToPost (q : Post) (e : CronEvent) : Post :=
  match e with
  | CronEvent.write postId st err =>
      if q.id = postId then
        { q with status := st,
                 error := match err with
                          | some m => some m
                          | none => q.error }
      else q
  | _ => q

/-- Effect of a whole event trace on one row. -/
def applyEventsToPost (evs : List CronEvent) (q : Post) : Post :=
  evs.foldl applyEventToPost q

/-- Effect of a whole event trace on the posts table: each UPDATE touches
exactly the rows whose id matches. -/
def applyEvents (posts : List Post) (evs : List CronEvent) : List Post :=
  posts.map (applyEventsToPost evs)

/-- Result of one invocation of the cron endpoint handler. -/
structure CronResult where
  statusCode : Nat
  success : Bool
  events : List CronEvent
  final : DBState
deriving Repr

/-- The `/api/cron/check-posts` handler: compare the Authorization header
against the shared secret; on mismatch answer 401 without touching the
store; on match select the due posts, run the loop over the batch (the
credentials row is re-read each iteration but the loop never writes the
credentials table, so each read yields the head row of the table), apply
its writes to the posts table, and answer with a success indicator. -/
def checkPostsHandler (secret : String) (authHeader : Option String)
    (o : Oracle) (now : Int) (s : DBState) : CronResult :=
  if authHeader = some ("Bearer " ++ secret) then
    let batch := selectDue now s.posts
    let evs := CronEvent.selectDue :: runLoop o s.creds.head? batch
    { statusCode := 200, success := true, events := evs,
      final := { s with posts := applyEvents s.posts evs } }
  else
    { statusCode := 401, success := false, events := [], final := s }

/-- Per-post outcome of one loop iteration, as a function on the row:
the closed form of what the iteration's UPDATE does to the selected row. -/
def outcomeOf (o : Oracle) (creds : Option Credentials) (q : Post) : Post :=
  match creds with
  | none => { q with status := Status.failed,
                     error := some undefinedCredsMessage }
  | some c =>
      match o.loginResult c.identifier c.password with
      | some msg => { q with status := Status.failed, error := some msg }
      | none =>
          match o.publishResult q.id q.content with
          | some msg => { q with status := Status.failed, error := some msg }
          | none => { q with status := Status.published }

/-- Number of publish (agent.post) calls for a given post id in a trace. -/
def publishCount (evs : List CronEvent) (postId : Nat) : Nat :=
  (evs.filter (fun e =>
    match e with
    | CronEvent.publish i _ => i = postId
    | _ => false)).length

/-- Total number of publish calls in a trace. -/
def publishTotal (evs : List CronEvent) : Nat :=
  (evs.filter (fun e =>
    match e with
    | CronEvent.publish _ _ => true
    | _ => false)).length

/-- Number of store writes (post UPDATEs) for a given post id in a trace. -/
def writeCount (evs : List CronEvent) (postId : Nat) : Nat :=
  (evs.filter (fun e =>
    match e with
    | CronEvent.write i _ _ => i = postId
    | _ => false)).length

/-- Number of login (agent.login) calls in a trace. -/
def loginCount (evs : List CronEvent) : Nat :=
  (evs.filter (fun e =>
    match e with
    | CronEvent.login _ _ => true
    | _ => false)).length

/-- Request body of `POST /api/posts`: the handler destructures
`content`, `scheduledFor` and `image` from the body (the `url` field a
client may send is not read).  The draft type carries `url` so that the
round-trip claim can be stated. -/
structure Draft where
  content : String
  scheduledFor : Int
  url : Option String
  image : Option String
deriving DecidableEq, Repr

/-- The `POST /api/posts` handler:
`INSERT INTO posts (content, scheduled_for, status, image)
VALUES ($1, $2, 'pending', $4) RETURNING *`.  The SERIAL column assigns the
next id, `created_at` defaults to NOW(), and the columns not named in the
INSERT (`error`, `url`) are NULL.  Returns the new state and the inserted
row (the endpoint's JSON response). -/
def createPost (now : Int) (d : Draft) (s : DBState) : DBState × Post :=
  let row : Post :=
    { id := s.postsSeq, content := d.content, scheduledFor := d.scheduledFor,
      status := Status.pending, error := none, createdAt := now,
      url := none, image := d.image }
  ({ s with posts := s.posts ++ [row], postsSeq := s.postsSeq + 1 }, row)

/-- The `GET /api/posts` handler: `SELECT * FROM posts`. -/
def getAllPosts (s : DBState) : List Post :=
  s.posts

/-- The `GET /api/posts/pending` handler. -/
def getPendingPosts (now : Int) (s : DBState) : List Post :=
  selectDue now s.posts

/-- The `DELETE /api/posts/:id` handler:
`DELETE FROM posts WHERE id = $1`. -/
def deletePost (postId : Nat) (s : DBState) : DBState :=
  { s with posts := s.posts.filter (fun p => p.id ≠ postId) }

/-- The `GET /api/credentials` handler:
`SELECT * FROM credentials LIMIT 1`, answering the first row (or nothing
when the table is empty). -/
def getCredentialsRow (s : DBState) : Option Credentials :=
  s.creds.head?

/-- First half of the `POST /api/credentials` handler:
`DELETE FROM credentials`. -/
def deleteCredentialsRows (s : DBState) : DBState :=
  { s with creds := [] }

/-- Second half of the `POST /api/credentials` handler:
`INSERT INTO credentials (identifier, password) VALUES ($1, $2)` with the
SERIAL id counter. -/
def insertCredential (identifier password : String) (s : DBState) : DBState :=
  { s with creds := s.creds ++ [⟨s.credsSeq, identifier, password⟩],
           credsSeq := s.credsSeq + 1 }

/-- The `POST /api/credentials` handler: delete all rows, then insert the
new one. -/
def setCredentials (identifier password : String) (s : DBState) : DBState :=
  insertCredential identifier password (deleteCredentialsRows s)

/-- The `DELETE /api/credentials` handler. -/
def deleteCredentials (s : DBState) : DBState :=
  deleteCredentialsRows s

/-- The operations the API server exposes, i.e. every way the system can
act on the store.  Read-only routes are included (they leave the state
unchanged); `cron` is the authenticated run-loop trigger. -/
inductive Op where
  | getPending (now : Int)
  | getAll
  | create (now : Int) (d : Draft)
  | delete (postId : Nat)
  | cron (secret : String) (authHeader : Option String) (o : Oracle)
      (now : Int)
  | getCreds
  | setCreds (identifier password : String)
  | deleteCreds

/-- State after one API operation. -/
def applyOp (s : DBState) : Op → DBState
  | Op.getPending _ => s
  | Op.getAll => s
  | Op.create now d => (createPost now d s).1
  | Op.delete postId => deletePost postId s
  | Op.cron secret authHeader o now =>
      (checkPostsHandler secret authHeader o now s).final
  | Op.getCreds => s
  | Op.setCreds identifier password => setCredentials identifier password s
  | Op.deleteCreds => deleteCredentials s

/-- Well-formedness of a store state: ids of the posts table are pairwise
distinct and below the SERIAL counter (what PostgreSQL's SERIAL column
guarantees for any state the server can reach). -/
def WF (s : DBState) : Prop :=
  (s.posts.map Post.id).Nodup ∧ ∀ p ∈ s.posts, p.id < s.postsSeq

namespace RemoteDB

/-- Outcome of the browser `fetch` underlying `RemoteDB.fetchApi` on the
credentials endpoint: either the transport fails (fetch rejects), or a
response arrives with its `ok` flag, its status text and the result of
parsing its JSON body. -/
inductive FetchOutcome where
  | transportError (msg : String)
  | response (ok : Bool) (statusText : String)
      (body : Except String Credentials)
deriving Repr

/-- RemoteDB.fetchApi: a transport failure propagates as a thrown error; a
non-OK response throws the API Error with the status text; an OK response
yields its parsed body (whose parse may itself fail). -/
def fetchApi (r : FetchOutcome) : Except String Credentials :=
  match r with
  | FetchOutcome.transportError msg => Except.error msg
  | FetchOutcome.response ok statusText body =>
      if ok then body else Except.error ("API Error: " ++ statusText)

/-- RemoteDB.getCredentials: try fetchApi, and on any thrown error return
null. -/
def getCredentials (r : FetchOutcome) : Option Credentials :=
  match fetchApi r with
  | Except.ok c => some c
  | Except.error _ => none

/-- Whether the underlying HTTP request failed: the transport rejected or
the response was non-OK. -/
def isFailure (r : FetchOutcome) : Bool :=
  match r with
  | FetchOutcome.transportError _ => true
  | FetchOutcome.response ok _ _ => !ok

end RemoteDB

namespace Bluesky

/-- A blob reference as returned by the image upload
(`$type`, `ref.$link`, `mimeType`, `size`). -/
structure BlobRef where
  type : String
  link : String
  mimeType : String
  size : Nat
deriving DecidableEq, Repr

/-- The image part of a draft handed to the payload builder: an uploaded
blob reference plus optional alt text. -/
structure ImageInput where
  blobRef : BlobRef
  alt : Option String
deriving DecidableEq, Repr

/-- Link-card metadata returned by the external metadata resolver. -/
structure ExternalEmbedData where
  uri : String
  title : String
  description : String
deriving DecidableEq, Repr

/-- An embed of the outgoing payload: a link card (external) or a list of
images, each an alt text with its blob reference. -/
inductive Embed where
  | external (e : ExternalEmbedData)
  | images (imgs : List (String × BlobRef))
deriving DecidableEq, Repr

/-- The outgoing payload of the post-creation call: text, its rich-text
facets (the segmentation is delegated to the client library, modelled as a
function parameter), at most one embed, and `createdAt` equal to the
draft's scheduled instant. -/
structure PostData where
  text : String
  facets : List String
  embed : Option Embed
  createdAt : Int
deriving DecidableEq, Repr

/-- Input draft of the payload builder. -/
structure BuildDraft where
  content : String
  url : Option String
  image : Option ImageInput
  scheduledAt : Int
deriving DecidableEq, Repr

/-- Modelled from the spec: the payload builder `getPostData` of
`src/lib/bluesky.ts`, a file absent from the source tree (only its test
suite is present).  Per spec section 4.2: fail with "No credentials set"
when credentials resolve to null, before any network call; always run
rich-text facet detection over the content; if `url` is present embed the
resolved metadata as a link-card embed, ignoring `image` entirely; else if
`image` is present embed it as an image embed, defaulting absent alt text
to the empty string; else no embed; `createdAt` is the scheduled instant,
not the build time.  `facetsOf` stands for the client library's facet
detection and `meta` for the external metadata resolver. -/
def getPostData (credentials : Option Credentials)
    (facetsOf : String → List String)
    (meta : String → ExternalEmbedData) (d : BuildDraft) :
    Except String PostData :=
  match credentials with
  | none => Except.error "No credentials set"
  | some _ =>
      let base : PostData :=
        { text := d.content, facets := facetsOf d.content, embed := none,
          createdAt := d.scheduledAt }
      match d.url with
      | some u => Except.ok { base with embed := some (Embed.external (meta u)) }
      | none =>
          match d.image with
          | some img =>
              Except.ok
                { base with
                  embed := some (Embed.images [(img.alt.getD "", img.blobRef)]) }
          | none => Except.ok base

/-- Whether an optional embed is a link-card (external) embed. -/
def isLinkCardEmbed : Option Embed → Bool
  | some (Embed.external _) => true
  | _ => false

/-- Whether an optional embed is an image embed. -/
def isImageEmbed : Option Embed → Bool
  | some (Embed.images _) => true
  | _ => false

end Bluesky

/-! ### Concrete inputs used by witnesses and counterexamples -/

/-- A facet-detection stub returning no facets. -/
def facetsNone : String → List String := fun _ => []

/-- A metadata resolver answering fixed title and description. -/
def metaExample : String → Bluesky.ExternalEmbedData :=
  fun u => { uri := u, title := "Example", description := "Test site" }

/-- A payload-builder draft with both url and image set. -/
def draftBothUrlImage : Bluesky.BuildDraft :=
  { content := "Test with both URL and image",
    url := some "https://example.com",
    image := some
      { blobRef :=
          { type := "blob", link := "test-link",
            mimeType := "image/jpeg", size := 1024 },
        alt := some "Test image" },
    scheduledAt := 7 }

/-- An oracle on which every login and every publish call succeeds. -/
def oracleAllOk : Oracle :=
  { loginResult := fun _ _ => none, publishResult := fun _ _ => none }

/-- An oracle on which every login call is rejected. -/
def oracleLoginReject : Oracle :=
  { loginResult := fun _ _ => some "Invalid identifier or password",
    publishResult := fun _ _ => none }

/-- An oracle on which login succeeds and every publish call fails. -/
def oraclePublishFail : Oracle :=
  { loginResult := fun _ _ => none,
    publishResult := fun _ _ => some "Post failed" }

/-- A store with one due pending post, one published post and one future
pending post, and one credential row. -/
def witnessStateC1 : DBState :=
  { posts :=
      [{ id := 1, content := "hello", scheduledFor := 3,
         status := Status.pending, error := none, createdAt := 0,
         url := none, image := none },
       { id := 2, content := "old", scheduledFor := 1,
         status := Status.published, error := none, createdAt := 0,
         url := none, image := none },
       { id := 3, content := "later", scheduledFor := 99,
         status := Status.pending, error := none, createdAt := 0,
         url := none, image := none }],
    postsSeq := 4,
    creds := [{ id := 1, identifier := "alice", password := "pw" }],
    credsSeq := 2 }

/-- A store with one due pending post and one credential row (used with the
login-rejecting oracle). -/
def loginRejectState : DBState :=
  { posts :=
      [{ id := 1, content := "hello", scheduledFor := 3,
         status := Status.pending, error := none, createdAt := 0,
         url := none, image := none }],
    postsSeq := 2,
    creds := [{ id := 1, identifier := "alice", password := "wrongpw" }],
    credsSeq := 2 }

/-- A store with one due pending post and an empty credentials table. -/
def noCredsState : DBState :=
  { posts :=
      [{ id := 1, content := "hello", scheduledFor := 3,
         status := Status.pending, error := none, createdAt := 0,
         url := none, image := none }],
    postsSeq := 2, creds := [], credsSeq := 1 }

/-- An empty store. -/
def emptyState : DBState :=
  { posts := [], postsSeq := 1, creds := [], credsSeq := 1 }

/-- A draft that sets both a url and an image. -/
def draftWithUrl : Draft :=
  { content := "check this", scheduledFor := 7,
    url := some "https://example.com", image := some "img.png" }

/-! ### Trace and state lemmas about the cron run loop -/

theorem applyEventsToPost_append (l₁ l₂ : List CronEvent) (q : Post) :
    applyEventsToPost (l₁ ++ l₂) q =
      applyEventsToPost l₂ (applyEventsToPost l₁ q) := by
  simp [applyEventsToPost, List.foldl_append]

theorem outcomeOf_id (o : Oracle) (c : Option Credentials) (q : Post) :
    (outcomeOf o c q).id = q.id := by
  cases c with
  | none => simp [outcomeOf]
  | some c =>
      cases h : o.loginResult c.identifier c.password with
      | some msg => simp [outcomeOf, h]
      | none =>
          cases h2 : o.publishResult q.id q.content with
          | some msg => simp [outcomeOf, h, h2]
          | none => simp [outcomeOf, h, h2]

theorem outcomeOf_status (o : Oracle) (c : Option Credentials) (q : Post) :
    (outcomeOf o c q).status = Status.published ∨
      (outcomeOf o c q).status = Status.failed := by
  cases c with
  | none => simp [outcomeOf]
  | some c =>
      cases h : o.loginResult c.identifier c.password with
      | some msg => simp [outcomeOf, h]
      | none =>
          cases h2 : o.publishResult q.id q.content with
          | some msg => simp [outcomeOf, h, h2]
          | none => simp [outcomeOf, h, h2]

theorem applyEventsToPost_processPost_self (o : Oracle)
    (c : Option Credentials) (p : Post) :
    applyEventsToPost (processPost o c p) p = outcomeOf o c p := by
  cases c with
  | none => simp [processPost, outcomeOf, applyEventsToPost, applyEventToPost]
  | some c =>
      cases h : o.loginResult c.identifier c.password with
      | some msg =>
          simp [processPost, outcomeOf, applyEventsToPost, applyEventToPost, h]
      | none =>
          cases h2 : o.publishResult p.id p.content with
          | some msg =>
              simp [processPost, outcomeOf, applyEventsToPost,
                applyEventToPost, h, h2]
          | none =>
              simp [processPost, outcomeOf, applyEventsToPost,
                applyEventToPost, h, h2]

theorem applyEventsToPost_processPost_other (o : Oracle)
    (c : Option Credentials) (p q : Post) (h : q.id ≠ p.id) :
    applyEventsToPost (processPost o c p) q = q := by
  cases c with
  | none => simp [processPost, applyEventsToPost, applyEventToPost, h]
  | some c =>
      cases hl : o.loginResult c.identifier c.password with
      | some msg =>
          simp [processPost, applyEventsToPost, applyEventToPost, h, hl]
      | none =>
          cases h2 : o.publishResult p.id p.content with
          | some msg =>
              simp [processPost, applyEventsToPost, applyEventToPost, h, hl, h2]
          | none =>
              simp [processPost, applyEventsToPost, applyEventToPost, h, hl, h2]

theorem runLoop_cons (o : Oracle) (c : Option Credentials) (p : Post)
    (rest : List Post) :
    runLoop o c (p :: rest) = processPost o c p ++ runLoop o c rest := by
  simp [runLoop]

theorem applyEventsToPost_runLoop_notMem (o : Oracle)
    (c : Option Credentials) (batch : List Post) (q : Post)
    (h : q.id ∉ batch.map Post.id) :
    applyEventsToPost (runLoop o c batch) q = q := by
  induction batch with
  | nil => simp [runLoop, applyEventsToPost]
  | cons p rest ih =>
      rw [runLoop_cons, applyEventsToPost_append]
      have hq : q.id ≠ p.id := by
        intro hc
        exact h (by simp [hc])
      rw [applyEventsToPost_processPost_other o c p q hq]
      exact ih (by
        intro hc
        exact h (by simp at hc ⊢; exact Or.inr hc))

theorem applyEventsToPost_runLoop_mem (o : Oracle)
    (c : Option Credentials) (batch : List Post) (p : Post)
    (hnd : (batch.map Post.id).Nodup) (hp : p ∈ batch) :
    applyEventsToPost (runLoop o c batch) p = outcomeOf o c p := by
  induction batch with
  | nil => cases hp
  | cons hd rest ih =>
      rw [List.map_cons, List.nodup_cons] at hnd
      rw [runLoop_cons, applyEventsToPost_append]
      rcases List.mem_cons.mp hp with heq | hmem
      · subst heq
        rw [applyEventsToPost_processPost_self]
        apply applyEventsToPost_runLoop_notMem
        rw [outcomeOf_id]
        exact hnd.1
      · have hne : p.id ≠ hd.id := by
          intro hc
          exact hnd.1 (hc ▸ List.mem_map_of_mem Post.id hmem)
        rw [applyEventsToPost_processPost_other o c hd p hne]
        exact ih hnd.2 hmem

theorem applyEventsToPost_selectDueEvent (l : List CronEvent) (q : Post) :
    applyEventsToPost (CronEvent.selectDue :: l) q = applyEventsToPost l q := by
  simp [applyEventsToPost, applyEventToPost]

theorem publishCount_append (l₁ l₂ : List CronEvent) (i : Nat) :
    publishCount (l₁ ++ l₂) i = publishCount l₁ i + publishCount l₂ i := by
  simp [publishCount, List.filter_append]

theorem writeCount_append (l₁ l₂ : List CronEvent) (i : Nat) :
    writeCount (l₁ ++ l₂) i = writeCount l₁ i + writeCount l₂ i := by
  simp [writeCount, List.filter_append]

theorem loginCount_append (l₁ l₂ : List CronEvent) :
    loginCount (l₁ ++ l₂) = loginCount l₁ + loginCount l₂ := by
  simp [loginCount, List.filter_append]

theorem publishTotal_append (l₁ l₂ : List CronEvent) :
    publishTotal (l₁ ++ l₂) = publishTotal l₁ + publishTotal l₂ := by
  simp [publishTotal, List.filter_append]

theorem publishCount_processPost_ne (o : Oracle) (c : Option Credentials)
    (p : Post) (i : Nat) (h : p.id ≠ i) :
    publishCount (processPost o c p) i = 0 := by
  cases c with
  | none => simp [processPost, publishCount]
  | some c =>
      cases hl : o.loginResult c.identifier c.password with
      | some msg => simp [processPost, publishCount, hl]
      | none =>
          cases h2 : o.publishResult p.id p.content with
          | some msg => simp [processPost, publishCount, hl, h2, h]
          | none => simp [processPost, publishCount, hl, h2, h]

theorem publishCount_processPost_self_ok (o : Oracle) (c : Credentials)
    (p : Post) (hl : o.loginResult c.identifier c.password = none) :
    publishCount (processPost o (some c) p) p.id = 1 := by
  cases h2 : o.publishResult p.id p.content with
  | some msg => simp [processPost, publishCount, hl, h2]
  | none => simp [processPost, publishCount, hl, h2]

theorem writeCount_processPost_ne (o : Oracle) (c : Option Credentials)
    (p : Post) (i : Nat) (h : p.id ≠ i) :
    writeCount (processPost o c p) i = 0 := by
  cases c with
  | none => simp [processPost, writeCount, h]
  | some c =>
      cases hl : o.loginResult c.identifier c.password with
      | some msg => simp [processPost, writeCount, hl, h]
      | none =>
          cases h2 : o.publishResult p.id p.content with
          | some msg => simp [processPost, writeCount, hl, h2, h]
          | none => simp [processPost, writeCount, hl, h2, h]

theorem writeCount_processPost_self (o : Oracle) (c : Option Credentials)
    (p : Post) :
    writeCount (processPost o c p) p.id = 1 := by
  cases c with
  | none => simp [processPost, writeCount]
  | some c =>
      cases hl : o.loginResult c.identifier c.password with
      | some msg => simp [processPost, writeCount, hl]
      | none =>
          cases h2 : o.publishResult p.id p.content with
          | some msg => simp [processPost, writeCount, hl, h2]
          | none => simp [processPost, writeCount, hl, h2]

theorem loginCount_processPost_none (o : Oracle) (p : Post) :
    loginCount (processPost o none p) = 0 := by
  simp [processPost, loginCount]

theorem loginCount_processPost_some (o : Oracle) (c : Credentials)
    (p : Post) :
    loginCount (processPost o (some c) p) = 1 := by
  cases hl : o.loginResult c.identifier c.password with
  | some msg => simp [processPost, loginCount, hl]
  | none =>
      cases h2 : o.publishResult p.id p.content with
      | some msg => simp [processPost, loginCount, hl, h2]
      | none => simp [processPost, loginCount, hl, h2]

theorem publishTotal_processPost_none (o : Oracle) (p : Post) :
    publishTotal (processPost o none p) = 0 := by
  simp [processPost, publishTotal]

theorem publishTotal_processPost_loginFail (o : Oracle) (c : Credentials)
    (p : Post) (msg : String)
    (hl : o.loginResult c.identifier c.password = some msg) :
    publishTotal (processPost o (some c) p) = 0 := by
  simp [processPost, publishTotal, hl]

theorem publishCount_runLoop_notMem (o : Oracle) (c : Option Credentials)
    (batch : List Post) (i : Nat) (h : i ∉ batch.map Post.id) :
    publishCount (runLoop o c batch) i = 0 := by
  induction batch with
  | nil => simp [runLoop, publishCount]
  | cons hd rest ih =>
      rw [List.map_cons] at h
      rw [runLoop_cons, publishCount_append,
        publishCount_processPost_ne o c hd i
          (fun hc => h (hc ▸ List.mem_cons_self _ _)),
        ih (fun hc => h (List.mem_cons_of_mem _ hc))]

theorem publishCount_runLoop_mem_ok (o : Oracle) (c : Credentials)
    (batch : List Post) (p : Post)
    (hl : o.loginResult c.identifier c.password = none)
    (hnd : (batch.map Post.id).Nodup) (hp : p ∈ batch) :
    publishCount (runLoop o (some c) batch) p.id = 1 := by
  induction batch with
  | nil => cases hp
  | cons hd rest ih =>
      rw [List.map_cons, List.nodup_cons] at hnd
      rw [runLoop_cons, publishCount_append]
      rcases List.mem_cons.mp hp with heq | hmem
      · subst heq
        rw [publishCount_processPost_self_ok o c p hl,
          publishCount_runLoop_notMem o (some c) rest p.id hnd.1]
      · have hne : hd.id ≠ p.id := by
          intro hc
          exact hnd.1 (hc ▸ List.mem_map_of_mem Post.id hmem)
        rw [publishCount_processPost_ne o (some c) hd p.id hne,
          ih hnd.2 hmem]

theorem writeCount_runLoop_notMem (o : Oracle) (c : Option Credentials)
    (batch : List Post) (i : Nat) (h : i ∉ batch.map Post.id) :
    writeCount (runLoop o c batch) i = 0 := by
  induction batch with
  | nil => simp [runLoop, writeCount]
  | cons hd rest ih =>
      rw [List.map_cons] at h
      rw [runLoop_cons, writeCount_append,
        writeCount_processPost_ne o c hd i
          (fun hc => h (hc ▸ List.mem_cons_self _ _)),
        ih (fun hc => h (List.mem_cons_of_mem _ hc))]

theorem writeCount_runLoop_mem (o : Oracle) (c : Option Credentials)
    (batch : List Post) (p : Post)
    (hnd : (batch.map Post.id).Nodup) (hp : p ∈ batch) :
    writeCount (runLoop o c batch) p.id = 1 := by
  induction batch with
  | nil => cases hp
  | cons hd rest ih =>
      rw [List.map_cons, List.nodup_cons] at hnd
      rw [runLoop_cons, writeCount_append]
      rcases List.mem_cons.mp hp with heq | hmem
      · subst heq
        rw [writeCount_processPost_self o c p,
          writeCount_runLoop_notMem o c rest p.id hnd.1]
      · have hne : hd.id ≠ p.id := by
          intro hc
          exact hnd.1 (hc ▸ List.mem_map_of_mem Post.id hmem)
        rw [writeCount_processPost_ne o c hd p.id hne, ih hnd.2 hmem]

theorem loginCount_runLoop_none (o : Oracle) (batch : List Post) :
    loginCount (runLoop o none batch) = 0 := by
  induction batch with
  | nil => simp [runLoop, loginCount]
  | cons hd rest ih =>
      rw [runLoop_cons, loginCount_append, loginCount_processPost_none, ih]

theorem loginCount_runLoop_some (o : Oracle) (c : Credentials)
    (batch : List Post) :
    loginCount (runLoop o (some c) batch) = batch.length := by
  induction batch with
  | nil => simp [runLoop, loginCount]
  | cons hd rest ih =>
      rw [runLoop_cons, loginCount_append, loginCount_processPost_some, ih,
        List.length_cons, Nat.add_comm]

theorem publishTotal_runLoop_none (o : Oracle) (batch : List Post) :
    publishTotal (runLoop o none batch) = 0 := by
  induction batch with
  | nil => simp [runLoop, publishTotal]
  | cons hd rest ih =>
      rw [runLoop_cons, publishTotal_append, publishTotal_processPost_none, ih]

theorem publishTotal_runLoop_loginFail (o : Oracle) (c : Credentials)
    (batch : List Post) (msg : String)
    (hl : o.loginResult c.identifier c.password = some msg) :
    publishTotal (runLoop o (some c) batch) = 0 := by
  induction batch with
  | nil => simp [runLoop, publishTotal]
  | cons hd rest ih =>
      rw [runLoop_cons, publishTotal_append,
        publishTotal_processPost_loginFail o c hd msg hl, ih]

theorem publishCount_selectDue_cons (l : List CronEvent) (i : Nat) :
    publishCount (CronEvent.selectDue :: l) i = publishCount l i := by
  simp [publishCount]

theorem writeCount_selectDue_cons (l : List CronEvent) (i : Nat) :
    writeCount (CronEvent.selectDue :: l) i = writeCount l i := by
  simp [writeCount]

theorem loginCount_selectDue_cons (l : List CronEvent) :
    loginCount (CronEvent.selectDue :: l) = loginCount l := by
  simp [loginCount]

theorem publishTotal_selectDue_cons (l : List CronEvent) :
    publishTotal (CronEvent.selectDue :: l) = publishTotal l := by
  simp [publishTotal]

/-- Closed form of the state change of an authorized cron run: with
pairwise distinct post ids, each due pending post ends at its per-post
outcome and every other row is unchanged. -/
theorem checkPostsHandler_final_posts (secret : String) (o : Oracle)
    (now : Int) (s : DBState) (hnd : (s.posts.map Post.id).Nodup) :
    (checkPostsHandler secret (some ("Bearer " ++ secret)) o now s).final.posts
      = s.posts.map
          (fun q => if isDue now q then outcomeOf o s.creds.head? q else q) := by
  unfold checkPostsHandler
  simp only [if_pos rfl]
  unfold applyEvents
  apply List.map_congr_left
  intro q hq
  rw [applyEventsToPost_selectDueEvent]
  by_cases hdue : isDue now q
  · have hqb : q ∈ selectDue now s.posts := by
      simp [selectDue, List.mem_filter, hq, hdue]
    have hndb : ((selectDue now s.posts).map Post.id).Nodup := by
      apply List.Nodup.sublist _ hnd
      exact List.Sublist.map Post.id (List.filter_sublist s.posts)
    rw [applyEventsToPost_runLoop_mem o s.creds.head? _ q hndb hqb, if_pos hdue]
  · rw [if_neg hdue]
    apply applyEventsToPost_runLoop_notMem
    intro hc
    rcases List.mem_map.mp hc with ⟨p, hpmem, hpid⟩
    have hpP : p ∈ s.posts := List.mem_of_mem_filter hpmem
    have hpd : isDue now p := List.of_mem_filter hpmem
    have : p = q := List.inj_on_of_nodup_map hnd hpP hq hpid
    exact hdue (this ▸ hpd)

theorem selectDue_map_id_nodup (now : Int) (posts : List Post)
    (hnd : (posts.map Post.id).Nodup) :
    ((selectDue now posts).map Post.id).Nodup := by
  apply List.Nodup.sublist _ hnd
  exact List.Sublist.map Post.id (List.filter_sublist posts)

theorem notDue_not_in_selectDue_ids (now : Int) (posts : List Post)
    (q : Post) (hnd : (posts.map Post.id).Nodup) (hq : q ∈ posts)
    (hdue : ¬ isDue now q = true) :
    q.id ∉ (selectDue now posts).map Post.id := by
  intro hc
  rcases List.mem_map.mp hc with ⟨p, hpmem, hpid⟩
  have hpP : p ∈ posts := List.mem_of_mem_filter hpmem
  have hpd : isDue now p := List.of_mem_filter hpmem
  have : p = q := List.inj_on_of_nodup_map hnd hpP hq hpid
  exact hdue (this ▸ hpd)

theorem checkPostsHandler_auth (secret : String) (o : Oracle) (now : Int)
    (s : DBState) :
    checkPostsHandler secret (some ("Bearer " ++ secret)) o now s =
      { statusCode := 200, success := true,
        events := CronEvent.selectDue ::
          runLoop o s.creds.head? (selectDue now s.posts),
        final := { s with posts := applyEvents s.posts (CronEvent.selectDue :: runLoop o s.creds.head? (selectDue now s.posts)) } } := by
  simp [checkPostsHandler]

theorem checkPostsHandler_unauth (secret : String)
    (authHeader : Option String) (o : Oracle) (now : Int) (s : DBState)
    (h : authHeader ≠ some ("Bearer " ++ secret)) :
    checkPostsHandler secret authHeader o now s =
      { statusCode := 401, success := false, events := [], final := s } := by
  simp [checkPostsHandler, h]

/-! ### Claim theorems -/

/-- C1: for a run of the cron loop with credentials present and accepted by
the network, exactly one publish call is attempted for each post that was
pending and due at selection time, and no publish call and no store write
touches any other post (published, failed, or scheduled in the future);
such posts are unchanged in the final state. -/
theorem cron_publishes_each_due_post_once (secret : String) (o : Oracle)
    (now : Int) (s : DBState) (c : Credentials)
    (hc : s.creds.head? = some c)
    (hvalid : o.loginResult c.identifier c.password = none)
    (hnd : (s.posts.map Post.id).Nodup) :
    (∀ p ∈ s.posts, isDue now p = true →
      publishCount
        (checkPostsHandler secret (some ("Bearer " ++ secret)) o now s).events
        p.id = 1) ∧
    (∀ q ∈ s.posts, ¬ isDue now q = true →
      publishCount
        (checkPostsHandler secret (some ("Bearer " ++ secret)) o now s).events
        q.id = 0 ∧
      writeCount
        (checkPostsHandler secret (some ("Bearer " ++ secret)) o now s).events
        q.id = 0 ∧
      q ∈ (checkPostsHandler secret
        (some ("Bearer " ++ secret)) o now s).final.posts) := by
  rw [checkPostsHandler_auth]
  constructor
  · intro p hp hdue
    rw [publishCount_selectDue_cons, hc]
    exact publishCount_runLoop_mem_ok o c _ p hvalid
      (selectDue_map_id_nodup now s.posts hnd)
      (List.mem_filter.mpr ⟨hp, hdue⟩)
  · intro q hq hdue
    have hnotin := notDue_not_in_selectDue_ids now s.posts q hnd hq hdue
    refine ⟨?_, ?_, ?_⟩
    · rw [publishCount_selectDue_cons]
      exact publishCount_runLoop_notMem o s.creds.head? _ q.id hnotin
    · rw [writeCount_selectDue_cons]
      exact writeCount_runLoop_notMem o s.creds.head? _ q.id hnotin
    · show q ∈ applyEvents s.posts _
      unfold applyEvents
      refine List.mem_map.mpr ⟨q, hq, ?_⟩
      rw [applyEventsToPost_selectDueEvent]
      exact applyEventsToPost_runLoop_notMem o s.creds.head? _ q hnotin

/-- C1 witness: the theorem applied to a store with one due pending post,
one published post and one future pending post, with valid credentials. -/
theorem cron_publishes_each_due_post_once_witness :
    witnessStateC1.creds.head? = some ⟨1, "alice", "pw"⟩ ∧
    oracleAllOk.loginResult "alice" "pw" = none ∧
    (witnessStateC1.posts.map Post.id).Nodup ∧
    ((∀ p ∈ witnessStateC1.posts, isDue 10 p = true →
      publishCount
        (checkPostsHandler "s" (some ("Bearer " ++ "s")) oracleAllOk 10
          witnessStateC1).events p.id = 1) ∧
    (∀ q ∈ witnessStateC1.posts, ¬ isDue 10 q = true →
      publishCount
        (checkPostsHandler "s" (some ("Bearer " ++ "s")) oracleAllOk 10
          witnessStateC1).events q.id = 0 ∧
      writeCount
        (checkPostsHandler "s" (some ("Bearer " ++ "s")) oracleAllOk 10
          witnessStateC1).events q.id = 0 ∧
      q ∈ (checkPostsHandler "s" (some ("Bearer " ++ "s")) oracleAllOk 10
          witnessStateC1).final.posts)) :=
  ⟨by decide, rfl, by decide,
    cron_publishes_each_due_post_once "s" oracleAllOk 10 witnessStateC1
      ⟨1, "alice", "pw"⟩ (by decide) rfl (by decide)⟩

/-- C2 counterexample: with an empty credentials table and one due pending
post, a run of the cron loop performs no login and no publish call, but it
does not leave the pending post untouched: the per-post catch block marks
it failed, refuting the claim's "every pending post's record is unchanged"
conjunct. -/
theorem cron_no_creds_cex :
    noCredsState.creds = [] ∧
    noCredsState.posts.map Post.status = [Status.pending] ∧
    (checkPostsHandler "s" (some ("Bearer " ++ "s")) oracleAllOk 5
      noCredsState).final.posts.map Post.status = [Status.failed] := by
  decide

/-- C2 amended: with an empty credentials table, a run of the cron loop
performs zero login calls and zero publish calls, but each due pending post
is updated to status failed with the message of the TypeError thrown by the
credentials field access; posts that are not due are unchanged. -/
theorem cron_no_creds_no_calls (secret : String) (o : Oracle) (now : Int)
    (s : DBState) (hcreds : s.creds = [])
    (hnd : (s.posts.map Post.id).Nodup) :
    loginCount
      (checkPostsHandler secret (some ("Bearer " ++ secret)) o now s).events
      = 0 ∧
    publishTotal
      (checkPostsHandler secret (some ("Bearer " ++ secret)) o now s).events
      = 0 ∧
    (checkPostsHandler secret (some ("Bearer " ++ secret)) o now s).final.posts
      = s.posts.map (fun q => if isDue now q then
          { q with status := Status.failed,
                   error := some undefinedCredsMessage } else q) := by
  have hh : s.creds.head? = none := by rw [hcreds]; rfl
  refine ⟨?_, ?_, ?_⟩
  · rw [checkPostsHandler_auth]
    show loginCount (CronEvent.selectDue :: _) = 0
    rw [loginCount_selectDue_cons, hh, loginCount_runLoop_none]
  · rw [checkPostsHandler_auth]
    show publishTotal (CronEvent.selectDue :: _) = 0
    rw [publishTotal_selectDue_cons, hh, publishTotal_runLoop_none]
  · rw [checkPostsHandler_final_posts secret o now s hnd, hh]
    rfl

/-- C2 amended witness: the amended theorem applied to the
one-due-post/no-credentials store. -/
theorem cron_no_creds_no_calls_witness :
    noCredsState.creds = [] ∧
    (noCredsState.posts.map Post.id).Nodup ∧
    (loginCount
      (checkPostsHandler "s" (some ("Bearer " ++ "s")) oracleAllOk 5
        noCredsState).events = 0 ∧
    publishTotal
      (checkPostsHandler "s" (some ("Bearer " ++ "s")) oracleAllOk 5
        noCredsState).events = 0 ∧
    (checkPostsHandler "s" (some ("Bearer " ++ "s")) oracleAllOk 5
      noCredsState).final.posts
      = noCredsState.posts.map (fun q => if isDue 5 q then
          { q with status := Status.failed,
                   error := some undefinedCredsMessage } else q)) :=
  ⟨rfl, by decide,
    cron_no_creds_no_calls "s" oracleAllOk 5 noCredsState rfl (by decide)⟩

/-- C3: when the publish call for one due post of the batch throws, the
error is caught locally: that post alone is updated to status failed with
the thrown message in the error field, and the run still performs exactly
one status write for every due post of the batch (no fail-fast across
posts). -/
theorem cron_per_post_error_contained (secret : String) (o : Oracle)
    (now : Int) (s : DBState) (c : Credentials) (p : Post) (msg : String)
    (hc : s.creds.head? = some c)
    (hok : o.loginResult c.identifier c.password = none)
    (hnd : (s.posts.map Post.id).Nodup)
    (hp : p ∈ s.posts) (hdue : isDue now p = true)
    (herr : o.publishResult p.id p.content = some msg) :
    ({ p with status := Status.failed, error := some msg } ∈
      (checkPostsHandler secret
        (some ("Bearer " ++ secret)) o now s).final.posts) ∧
    (∀ q ∈ s.posts, isDue now q = true →
      writeCount (checkPostsHandler secret
        (some ("Bearer " ++ secret)) o now s).events q.id = 1) := by
  constructor
  · rw [checkPostsHandler_final_posts secret o now s hnd, hc]
    refine List.mem_map.mpr ⟨p, hp, ?_⟩
    rw [if_pos hdue]
    simp [outcomeOf, hok, herr]
  · intro q hq hqdue
    rw [checkPostsHandler_auth]
    show writeCount (CronEvent.selectDue :: _) q.id = 1
    rw [writeCount_selectDue_cons]
    exact writeCount_runLoop_mem o s.creds.head? _ q
      (selectDue_map_id_nodup now s.posts hnd)
      (List.mem_filter.mpr ⟨hq, hqdue⟩)

/-- C3 witness: the theorem applied to the three-post store with an oracle
whose publish calls all fail. -/
theorem cron_per_post_error_contained_witness :
    witnessStateC1.creds.head? = some ⟨1, "alice", "pw"⟩ ∧
    oraclePublishFail.publishResult 1 "hello" = some "Post failed" ∧
    (({ id := 1, content := "hello", scheduledFor := 3,
        status := Status.failed, error := some "Post failed", createdAt := 0,
        url := none, image := none : Post } ∈
      (checkPostsHandler "s"
        (some ("Bearer " ++ "s")) oraclePublishFail 5
          witnessStateC1).final.posts) ∧
    (∀ q ∈ witnessStateC1.posts, isDue 5 q = true →
      writeCount (checkPostsHandler "s"
        (some ("Bearer " ++ "s")) oraclePublishFail 5
          witnessStateC1).events q.id = 1)) :=
  ⟨by decide, rfl,
    cron_per_post_error_contained "s" oraclePublishFail 5 witnessStateC1
      ⟨1, "alice", "pw"⟩
      { id := 1, content := "hello", scheduledFor := 3,
        status := Status.pending, error := none, createdAt := 0,
        url := none, image := none }
      "Post failed" (by decide) rfl (by decide) (by decide) (by decide) rfl⟩

/-- C4 counterexample: with stored credentials that the network rejects and
one due pending post, the run is not aborted without touching the store:
the due post's record is modified (marked failed), refuting the claim's
"no post record is modified" conjunct. -/
theorem cron_login_reject_cex :
    loginRejectState.posts.map Post.status = [Status.pending] ∧
    (checkPostsHandler "s" (some ("Bearer " ++ "s")) oracleLoginReject 5
      loginRejectState).final.posts.map Post.status = [Status.failed] := by
  decide

/-- C4 amended: when the login call rejects the stored credentials, no
publish call is made for any post, but the run is not aborted: one login
attempt is made per due post, and each due post's record is updated to
status failed with the login error's message; posts that are not due are
unchanged. -/
theorem cron_login_reject_no_publish (secret : String) (o : Oracle)
    (now : Int) (s : DBState) (c : Credentials) (msg : String)
    (hc : s.creds.head? = some c)
    (hrej : o.loginResult c.identifier c.password = some msg)
    (hnd : (s.posts.map Post.id).Nodup) :
    publishTotal
      (checkPostsHandler secret (some ("Bearer " ++ secret)) o now s).events
      = 0 ∧
    loginCount
      (checkPostsHandler secret (some ("Bearer " ++ secret)) o now s).events
      = (selectDue now s.posts).length ∧
    (checkPostsHandler secret (some ("Bearer " ++ secret)) o now s).final.posts
      = s.posts.map (fun q => if isDue now q then
          { q with status := Status.failed, error := some msg } else q) := by
  refine ⟨?_, ?_, ?_⟩
  · rw [checkPostsHandler_auth]
    show publishTotal (CronEvent.selectDue :: _) = 0
    rw [publishTotal_selectDue_cons, hc,
      publishTotal_runLoop_loginFail o c _ msg hrej]
  · rw [checkPostsHandler_auth]
    show loginCount (CronEvent.selectDue :: _) = _
    rw [loginCount_selectDue_cons, hc, loginCount_runLoop_some]
  · rw [checkPostsHandler_final_posts secret o now s hnd, hc]
    apply List.map_congr_left
    intro q hq
    by_cases hdue : isDue now q
    · rw [if_pos hdue, if_pos hdue]
      simp [outcomeOf, hrej]
    · rw [if_neg hdue, if_neg hdue]

/-- C4 amended witness: the amended theorem applied to the
one-due-post store with rejected credentials. -/
theorem cron_login_reject_no_publish_witness :
    loginRejectState.creds.head? = some ⟨1, "alice", "wrongpw"⟩ ∧
    oracleLoginReject.loginResult "alice" "wrongpw"
      = some "Invalid identifier or password" ∧
    (publishTotal
      (checkPostsHandler "s" (some ("Bearer " ++ "s")) oracleLoginReject 5
        loginRejectState).events = 0 ∧
    loginCount
      (checkPostsHandler "s" (some ("Bearer " ++ "s")) oracleLoginReject 5
        loginRejectState).events
      = (selectDue 5 loginRejectState.posts).length ∧
    (checkPostsHandler "s" (some ("Bearer " ++ "s")) oracleLoginReject 5
      loginRejectState).final.posts
      = loginRejectState.posts.map (fun q => if isDue 5 q then
          { q with status := Status.failed,
                   error := some "Invalid identifier or password" } else q)) :=
  ⟨by decide, rfl,
    cron_login_reject_no_publish "s" oracleLoginReject 5 loginRejectState
      ⟨1, "alice", "wrongpw"⟩ "Invalid identifier or password"
      (by decide) rfl (by decide)⟩

/-- C5: a cron trigger request whose Authorization header is missing or not
equal to the expected bearer secret is answered 401 with no store reads, no
store writes and an unchanged store; a request with the matching header
runs the loop and answers with a success indicator after every post of the
selected batch has been attempted (exactly one status write per batch
post). -/
theorem cron_endpoint_authorization (secret : String)
    (authHeader : Option String) (o : Oracle) (now : Int) (s : DBState)
    (hnd : (s.posts.map Post.id).Nodup) :
    (authHeader ≠ some ("Bearer " ++ secret) →
      (checkPostsHandler secret authHeader o now s).statusCode = 401 ∧
      (checkPostsHandler secret authHeader o now s).events = [] ∧
      (checkPostsHandler secret authHeader o now s).final = s) ∧
    (authHeader = some ("Bearer " ++ secret) →
      (checkPostsHandler secret authHeader o now s).success = true ∧
      ∀ p ∈ selectDue now s.posts,
        writeCount (checkPostsHandler secret authHeader o now s).events
          p.id = 1) := by
  constructor
  · intro h
    rw [checkPostsHandler_unauth secret authHeader o now s h]
    exact ⟨rfl, rfl, rfl⟩
  · intro h
    subst h
    rw [checkPostsHandler_auth]
    refine ⟨rfl, ?_⟩
    intro p hp
    rw [writeCount_selectDue_cons]
    exact writeCount_runLoop_mem o s.creds.head? _ p
      (selectDue_map_id_nodup now s.posts hnd) hp

/-- C5 witness: the theorem applied to a concrete store, once with a wrong
header and once with the matching one. -/
theorem cron_endpoint_authorization_witness :
    (witnessStateC1.posts.map Post.id).Nodup ∧
    ((some "Bearer wrong" ≠ some ("Bearer " ++ "s") →
      (checkPostsHandler "s" (some "Bearer wrong") oracleAllOk 10
        witnessStateC1).statusCode = 401 ∧
      (checkPostsHandler "s" (some "Bearer wrong") oracleAllOk 10
        witnessStateC1).events = [] ∧
      (checkPostsHandler "s" (some "Bearer wrong") oracleAllOk 10
        witnessStateC1).final = witnessStateC1) ∧
    (some "Bearer wrong" = some ("Bearer " ++ "s") →
      (checkPostsHandler "s" (some "Bearer wrong") oracleAllOk 10
        witnessStateC1).success = true ∧
      ∀ p ∈ selectDue 10 witnessStateC1.posts,
        writeCount (checkPostsHandler "s" (some "Bearer wrong") oracleAllOk 10
          witnessStateC1).events p.id = 1)) :=
  ⟨by decide,
    cron_endpoint_authorization "s" (some "Bearer wrong") oracleAllOk 10
      witnessStateC1 (by decide)⟩

/-- C6 counterexample: a draft whose url is set round-trips through
createPost and getAllPosts with url dropped (the INSERT names only content,
scheduled_for, status and image, so the url column stays NULL), refuting
the claim that the returned post's url equals the draft's url. -/
theorem createPost_drops_url_cex :
    draftWithUrl.url = some "https://example.com" ∧
    (getAllPosts (createPost 9 draftWithUrl emptyState).1).map Post.url
      = [none] := by
  decide

/-- C6 amended: createPost followed by getAllPosts returns, appended to the
prior posts, a post whose content, scheduledFor and image equal the draft's
fields, with a newly assigned id and a createdAt, and with status pending;
the draft's url however is not persisted: the stored post's url is always
none. -/
theorem createPost_roundtrip (now : Int) (d : Draft) (s : DBState) :
    getAllPosts (createPost now d s).1
      = getAllPosts s ++ [(createPost now d s).2] ∧
    (createPost now d s).2.content = d.content ∧
    (createPost now d s).2.scheduledFor = d.scheduledFor ∧
    (createPost now d s).2.image = d.image ∧
    (createPost now d s).2.status = Status.pending ∧
    (createPost now d s).2.createdAt = now ∧
    (createPost now d s).2.url = none ∧
    (createPost now d s).2.id = s.postsSeq ∧
    ((∀ p ∈ s.posts, p.id < s.postsSeq) →
      (createPost now d s).2.id ∉ (getAllPosts s).map Post.id) := by
  refine ⟨rfl, rfl, rfl, rfl, rfl, rfl, rfl, rfl, ?_⟩
  intro hfresh hc
  rcases List.mem_map.mp hc with ⟨p, hp, hid⟩
  have h1 : p.id < s.postsSeq := hfresh p hp
  have h2 : p.id = s.postsSeq := hid
  omega

/-- C6 amended witness: the amended theorem applied to the three-post
store and the url-carrying draft. -/
theorem createPost_roundtrip_witness :
    (∀ p ∈ witnessStateC1.posts, p.id < witnessStateC1.postsSeq) ∧
    (getAllPosts (createPost 9 draftWithUrl witnessStateC1).1
      = getAllPosts witnessStateC1
          ++ [(createPost 9 draftWithUrl witnessStateC1).2] ∧
    (createPost 9 draftWithUrl witnessStateC1).2.content
      = draftWithUrl.content ∧
    (createPost 9 draftWithUrl witnessStateC1).2.scheduledFor
      = draftWithUrl.scheduledFor ∧
    (createPost 9 draftWithUrl witnessStateC1).2.image = draftWithUrl.image ∧
    (createPost 9 draftWithUrl witnessStateC1).2.status = Status.pending ∧
    (createPost 9 draftWithUrl witnessStateC1).2.createdAt = 9 ∧
    (createPost 9 draftWithUrl witnessStateC1).2.url = none ∧
    (createPost 9 draftWithUrl witnessStateC1).2.id
      = witnessStateC1.postsSeq ∧
    ((∀ p ∈ witnessStateC1.posts, p.id < witnessStateC1.postsSeq) →
      (createPost 9 draftWithUrl witnessStateC1).2.id
        ∉ (getAllPosts witnessStateC1).map Post.id)) :=
  ⟨by decide, createPost_roundtrip 9 draftWithUrl witnessStateC1⟩

/-- C7: for a draft with both url and image set, the payload built by
getPostData carries a link-card (external) embed resolved from the url and
carries no image embed: the url wins and the image is dropped from the
outgoing payload. -/
theorem getPostData_url_wins (c : Credentials)
    (facetsOf : String → List String)
    (meta : String → Bluesky.ExternalEmbedData) (d : Bluesky.BuildDraft)
    (u : String) (img : Bluesky.ImageInput)
    (hu : d.url = some u) (_himg : d.image = some img) :
    Bluesky.getPostData (some c) facetsOf meta d
      = Except.ok { text := d.content, facets := facetsOf d.content,
                    embed := some (Bluesky.Embed.external (meta u)),
                    createdAt := d.scheduledAt } ∧
    ∀ pd, Bluesky.getPostData (some c) facetsOf meta d = Except.ok pd →
      Bluesky.isLinkCardEmbed pd.embed = true ∧
      Bluesky.isImageEmbed pd.embed = false := by
  have h1 : Bluesky.getPostData (some c) facetsOf meta d
      = Except.ok { text := d.content, facets := facetsOf d.content,
                    embed := some (Bluesky.Embed.external (meta u)),
                    createdAt := d.scheduledAt } := by
    simp [Bluesky.getPostData, hu]
  refine ⟨h1, ?_⟩
  intro pd hpd
  rw [h1] at hpd
  cases hpd
  exact ⟨rfl, rfl⟩

/-- C7 witness: the theorem applied to a concrete draft carrying both a
url and an uploaded image. -/
theorem getPostData_url_wins_witness :
    draftBothUrlImage.url = some "https://example.com" ∧
    (draftBothUrlImage.image).isSome = true ∧
    (Bluesky.getPostData (some ⟨1, "alice", "pw"⟩) facetsNone metaExample
        draftBothUrlImage
      = Except.ok { text := draftBothUrlImage.content,
                    facets := facetsNone draftBothUrlImage.content,
                    embed := some (Bluesky.Embed.external
                      (metaExample "https://example.com")),
                    createdAt := draftBothUrlImage.scheduledAt } ∧
    ∀ pd, Bluesky.getPostData (some ⟨1, "alice", "pw"⟩) facetsNone
        metaExample draftBothUrlImage = Except.ok pd →
      Bluesky.isLinkCardEmbed pd.embed = true ∧
      Bluesky.isImageEmbed pd.embed = false) :=
  ⟨rfl, rfl,
    getPostData_url_wins ⟨1, "alice", "pw"⟩ facetsNone metaExample
      draftBothUrlImage "https://example.com"
      { blobRef :=
          { type := "blob", link := "test-link",
            mimeType := "image/jpeg", size := 1024 },
        alt := some "Test image" }
      rfl rfl⟩

/-- C8: on a well-formed store, no operation of the API server ever
changes the status of a post that is already published or failed: a post
record surviving an operation with the same id either keeps its status or
moves from pending to published or failed, and a non-pending post is left
entirely unchanged (published and failed are terminal). -/
theorem post_status_terminal (s : DBState) (op : Op) (hwf : WF s) :
    ∀ p ∈ s.posts, ∀ q ∈ (applyOp s op).posts, q.id = p.id →
      (q.status = p.status ∨ (p.status = Status.pending ∧
        (q.status = Status.published ∨ q.status = Status.failed))) ∧
      (p.status ≠ Status.pending → q = p) := by
  obtain ⟨hnd, hlt⟩ := hwf
  intro p hp q hq hid
  have hsame : q ∈ s.posts →
      (q.status = p.status ∨ (p.status = Status.pending ∧
        (q.status = Status.published ∨ q.status = Status.failed))) ∧
      (p.status ≠ Status.pending → q = p) := by
    intro hq'
    have : q = p := List.inj_on_of_nodup_map hnd hq' hp hid
    subst this
    exact ⟨Or.inl rfl, fun _ => rfl⟩
  cases op with
  | getPending now => exact hsame hq
  | getAll => exact hsame hq
  | getCreds => exact hsame hq
  | setCreds i pw => exact hsame hq
  | deleteCreds => exact hsame hq
  | delete postId =>
      have hq' : q ∈ s.posts := by
        simp only [applyOp, deletePost, List.mem_filter] at hq
        exact hq.1
      exact hsame hq'
  | create now d =>
      simp only [applyOp, createPost] at hq
      rcases List.mem_append.mp hq with hold | hnew
      · exact hsame hold
      · exfalso
        have hqid : q.id = s.postsSeq := by
          rcases List.mem_singleton.mp hnew with rfl
          rfl
        have h1 : p.id < s.postsSeq := hlt p hp
        omega
  | cron secret authHeader o now =>
      by_cases hauth : authHeader = some ("Bearer " ++ secret)
      · subst hauth
        simp only [applyOp] at hq
        rw [checkPostsHandler_final_posts secret o now s hnd] at hq
        rcases List.mem_map.mp hq with ⟨r, hr, hrq⟩
        by_cases hdue : isDue now r
        · rw [if_pos hdue] at hrq
          have hqid : q.id = r.id := by rw [← hrq, outcomeOf_id]
          have hrp : r = p :=
            List.inj_on_of_nodup_map hnd hr hp (hqid ▸ hid)
          subst hrp
          have hpend : r.status = Status.pending := by
            simp [isDue] at hdue
            exact hdue.1
          refine ⟨Or.inr ⟨hpend, ?_⟩, fun hne => absurd hpend hne⟩
          rw [← hrq]
          exact outcomeOf_status o s.creds.head? r
        · rw [if_neg hdue] at hrq
          subst hrq
          exact hsame hr
      · rw [show applyOp s (Op.cron secret authHeader o now)
              = (checkPostsHandler secret authHeader o now s).final from rfl,
            checkPostsHandler_unauth secret authHeader o now s hauth] at hq
        exact hsame hq

/-- C8 witness: the theorem applied to the three-post store and an
authorized cron run. -/
theorem post_status_terminal_witness :
    WF witnessStateC1 ∧
    (∀ p ∈ witnessStateC1.posts,
      ∀ q ∈ (applyOp witnessStateC1
        (Op.cron "s" (some ("Bearer " ++ "s")) oracleAllOk 10)).posts,
      q.id = p.id →
      (q.status = p.status ∨ (p.status = Status.pending ∧
        (q.status = Status.published ∨ q.status = Status.failed))) ∧
      (p.status ≠ Status.pending → q = p)) :=
  ⟨⟨by decide, by decide⟩,
    post_status_terminal witnessStateC1
      (Op.cron "s" (some ("Bearer " ++ "s")) oracleAllOk 10)
      ⟨by decide, by decide⟩⟩

/-- C9: two consecutive setCredentials calls with values A then B leave
exactly one credential record, holding B's identifier and password (each
call deletes all prior rows before inserting the new one, so there is
never a second record and never a merge of A and B). -/
theorem setCredentials_replaces (s : DBState) (iA pA iB pB : String) :
    (setCredentials iB pB (setCredentials iA pA s)).creds.length = 1 ∧
    (setCredentials iB pB (setCredentials iA pA s)).creds
      = [{ id := s.credsSeq + 1, identifier := iB, password := pB }] :=
  ⟨rfl, rfl⟩

/-- C10: whenever the HTTP request underlying RemoteDB.getCredentials
fails — the transport rejects or the response is non-OK — getCredentials
returns null instead of throwing. -/
theorem remote_getCredentials_failure_null (r : RemoteDB.FetchOutcome)
    (h : RemoteDB.isFailure r = true) :
    RemoteDB.getCredentials r = none := by
  cases r with
  | transportError msg => rfl
  | response ok statusText body =>
      have hok : ok = false := by simpa [RemoteDB.isFailure] using h
      subst hok
      rfl

/-- C10 witness: the theorem applied to a non-OK (500) response carrying a
parseable body: the body is discarded and null is returned. -/
theorem remote_getCredentials_failure_null_witness :
    RemoteDB.isFailure (RemoteDB.FetchOutcome.response false
      "Internal Server Error" (Except.ok ⟨1, "alice", "pw"⟩)) = true ∧
    RemoteDB.getCredentials (RemoteDB.FetchOutcome.response false
      "Internal Server Error" (Except.ok ⟨1, "alice", "pw"⟩)) = none :=
  ⟨rfl, remote_getCredentials_failure_null _ rfl⟩

end BlueskyLater
